import Mathlib

/-!
Shallow embedding of `src/static/js/script.js` (admin dashboard client
script).  JS numbers are modelled as exact rationals (`ℚ`), strings as
`String` with explicit character-list helpers mirroring the JS string
operations the script uses.  Each DOM-facing behaviour of the script is
embedded as a pure function or a small state-transition model.
-/

namespace AdminScript

/-! ## String helpers (JS semantics used by the script) -/

/-- Whitespace characters recognised by JS `trim` / `parseFloat` skipping
(ASCII subset). -/
def isSpaceChar (c : Char) : Bool :=
  c = ' ' || c = '\t' || c = '\n' || c = '\r' || c = '\x0b' || c = '\x0c'

/-- JS `String.prototype.trim` on a character list. -/
def trimList (cs : List Char) : List Char :=
  ((cs.dropWhile isSpaceChar).reverse.dropWhile isSpaceChar).reverse

/-- JS `String.prototype.trim`. -/
def jsTrim (s : String) : String := ⟨trimList s.data⟩

/-- Does the pattern `p` start the list `s`? -/
def startsWithL : List Char → List Char → Bool
  | [], _ => true
  | _ :: _, [] => false
  | a :: ps, b :: cs => (a = b) && startsWithL ps cs

/-- Does `s` contain `sub` as a contiguous substring? (jQuery
`[action*="delete"]` attribute-contains semantics.) -/
def containsL : List Char → List Char → Bool
  | [], sub => startsWithL sub []
  | c :: rest, sub => startsWithL sub (c :: rest) || containsL rest sub

/-- Attribute-contains test on strings. -/
def strContains (s sub : String) : Bool := containsL s.data sub.data

/-- Does string `s` start with `p`? -/
def strStartsWith (s p : String) : Bool := startsWithL p.data s.data

/-! ## 4.1 Price calculator (script.js lines 5-10) -/

/-- Numeric value of a decimal digit character. -/
def digToNat (c : Char) : Nat := c.toNat - 48

/-- Value of a digit list read in base 10. -/
def natOfDigits (ds : List Char) : Nat :=
  ds.foldl (fun acc c => 10 * acc + digToNat c) 0

/-- JS `parseFloat` on a character list: skip leading whitespace, optional
sign, longest run of digits, optional fraction, optional exponent; `none`
models the `NaN` result when no digit is found.  (`Infinity` inputs are not
modelled: the script's claims never produce them and `ℚ` has no infinity.) -/
def parseFloatList (cs0 : List Char) : Option ℚ :=
  let cs := cs0.dropWhile isSpaceChar
  let sign : ℚ := match cs with
    | '-' :: _ => -1
    | _ => 1
  let cs1 : List Char := match cs with
    | '-' :: rest => rest
    | '+' :: rest => rest
    | _ => cs
  let intDs := cs1.takeWhile Char.isDigit
  let cs2 := cs1.drop intDs.length
  let fracDs : List Char := match cs2 with
    | '.' :: rest => rest.takeWhile Char.isDigit
    | _ => []
  let cs3 : List Char := match cs2 with
    | '.' :: rest => rest.drop fracDs.length
    | _ => cs2
  if intDs = [] && fracDs = [] then none
  else
    let mantissa : ℚ :=
      (natOfDigits intDs : ℚ) + (natOfDigits fracDs : ℚ) / 10 ^ fracDs.length
    let expPart : ℚ := match cs3 with
      | e :: rest =>
        if e = 'e' || e = 'E' then
          let eneg : Bool := match rest with
            | '-' :: _ => true
            | _ => false
          let rest2 : List Char := match rest with
            | '-' :: r => r
            | '+' :: r => r
            | _ => rest
          let eds := rest2.takeWhile Char.isDigit
          if eds = [] then 1
          else if eneg then 1 / 10 ^ natOfDigits eds
          else 10 ^ natOfDigits eds
        else 1
      | [] => 1
    some (sign * mantissa * expPart)

/-- JS `parseFloat` on a string. -/
def parseFloat (s : String) : Option ℚ := parseFloatList s.data

/-- The `parseFloat(...) || 0` idiom: `NaN` (here `none`) and `0` are falsy
and replaced by `0`. -/
def orZero (x : Option ℚ) : ℚ :=
  match x with
  | none => 0
  | some q => if q = 0 then 0 else q

/-- `price - (price * discount / 100)` as computed by the input handler. -/
def finalPrice (price discount : ℚ) : ℚ := price - price * discount / 100

/-- Floor of a rational, computed by flooring integer division. -/
def ratFloor (q : ℚ) : ℤ := Int.fdiv q.num q.den

/-- Round to the nearest integer, halves away from zero (JS `toFixed`
rounding on exactly representable values). -/
def roundHalfAway (q : ℚ) : ℤ :=
  if q < 0 then -ratFloor (-q + 1 / 2) else ratFloor (q + 1 / 2)

/-- Render a natural number below 100 as exactly two digits. -/
def twoDigits (n : Nat) : String :=
  (if n < 10 then "0" else "") ++ toString n

/-- JS `Number.prototype.toFixed(2)`: decimal rendering with exactly two
fractional digits. -/
def toFixed2 (q : ℚ) : String :=
  let n := roundHalfAway (q * 100)
  let m := n.natAbs
  (if n < 0 then "-" else "") ++ toString (m / 100) ++ "." ++ twoDigits (m % 100)

/-- The whole `input` handler: read both field strings, parse with the
`|| 0` fallback, compute the final price, write it `toFixed(2)` into
`#final_price`.  Returns the string written to the output field. -/
def priceHandler (priceStr discountStr : String) : String :=
  toFixed2 (finalPrice (orZero (parseFloat priceStr)) (orZero (parseFloat discountStr)))

/-! ## 4.3 Delete confirmation guard (script.js lines 29-33) -/

/-- A form element, abstracted to the attribute the script inspects. -/
structure Form where
  action : String
deriving DecidableEq

/-- Is the submit handler attached to this form?  jQuery selector
`form[action*="delete"]`: attribute-contains match. -/
def deleteGuardAttached (f : Form) : Bool := strContains f.action "delete"

/-- Outcome of a form submission attempt. -/
inductive SubmitOutcome
  | proceeds
  | cancelled
deriving DecidableEq

/-- Is the blocking `confirm` prompt shown when this form is submitted? -/
def confirmShown (f : Form) : Bool := deleteGuardAttached f

/-- Submitting form `f`, where `answer` is the user's response to the
confirm prompt (if one is shown): the handler calls `e.preventDefault()`
exactly when `!confirm(...)`. -/
def submitForm (f : Form) (answer : Bool) : SubmitOutcome :=
  if deleteGuardAttached f then
    if answer then .proceeds else .cancelled
  else .proceeds

/-! ## 4.2 Image preview (script.js lines 13-26) -/

/-- A selected file, abstracted to what `readAsDataURL` needs. -/
structure JsFile where
  name : String
  mime : String
  payload : String
deriving DecidableEq

/-- Environment model of `FileReader.readAsDataURL`'s result: the data URL
the browser delivers to `onload` for this file. -/
def dataURL (f : JsFile) : String := "data:" ++ f.mime ++ ";base64," ++ f.payload

/-- A `change` event on a file input: whether `input.siblings('img')` is
nonempty, and the `e.target.files` list. -/
structure ChangeEvent where
  hasSiblingImg : Bool
  files : List JsFile
deriving DecidableEq

/-- The `change` handler's guard: returns the file handed to
`readAsDataURL` (i.e. `e.target.files[0]`) when a sibling image exists and
a file was selected, else starts no read. -/
def changeHandler (ev : ChangeEvent) : Option JsFile :=
  if ev.hasSiblingImg then
    match ev.files with
    | f :: _ => some f
    | [] => none
  else none

/-- The preview image's `src` after the change event's read (if any)
completes: `onload` sets `src` to the read's data URL; with no read the
image is untouched. -/
def imgSrcAfter (old : String) (ev : ChangeEvent) : String :=
  match changeHandler ev with
  | some f => dataURL f
  | none => old

/-! ## Completion-order model for rapid re-selection (script.js 18-24) -/

/-- Event-loop events touching the preview image: a `change` (which may
start a read) or an `onload` completion of a read of file `f`. -/
inductive PreviewEv
  | select (ev : ChangeEvent)
  | complete (f : JsFile)
deriving DecidableEq

/-- Is this event a read completion? -/
def isCompleteEv : PreviewEv → Bool
  | .complete _ => true
  | .select _ => false

/-- One event-loop step on the image's `src`: a selection only starts a
read (no `src` change yet); each `onload` callback unconditionally
overwrites `src` with its own read's data URL — there is no guard
comparing it with the latest selection. -/
def stepEv (src : String) : PreviewEv → String
  | .select _ => src
  | .complete f => dataURL f

/-- The image's `src` after a whole event trace. -/
def runTrace (src : String) (tr : List PreviewEv) : String := tr.foldl stepEv src

/-! ## 4.4 Toast notifications (script.js lines 36-77) -/

/-- An alert element, abstracted to its text content and class list. -/
structure AlertElem where
  text : String
  classes : List String
deriving DecidableEq

/-- The chained ternary of the flash-to-toast loop: `hasClass` checks in
source order success, danger, warning, info, with `'success'` fallback. -/
def alertType (a : AlertElem) : String :=
  if a.classes.contains "alert-success" then "success"
  else if a.classes.contains "alert-danger" then "danger"
  else if a.classes.contains "alert-warning" then "warning"
  else if a.classes.contains "alert-info" then "info"
  else "success"

/-- The `(message, type)` pair handed to `showToast`. -/
structure ToastData where
  message : String
  ty : String
deriving DecidableEq

/-- Body of the `$('.alert').each` loop for one alert: trim the text,
infer the type, and call `showToast` only when `message` is truthy
(nonempty). -/
def alertToToast (a : AlertElem) : Option ToastData :=
  let message := jsTrim a.text
  let ty := alertType a
  if message = "" then none else some ⟨message, ty⟩

/-- All toasts produced by walking the page's alerts once at load. -/
def toastsOfAlerts (alerts : List AlertElem) : List ToastData :=
  alerts.filterMap alertToToast

/-- Severity lookup table, in the source's check order.  Modelled from the
spec: design note 9 asks for a single first-match lookup equivalent to the
chained conditionals. -/
def severityTable : List (String × String) :=
  [("alert-success", "success"), ("alert-danger", "danger"),
   ("alert-warning", "warning"), ("alert-info", "info")]

/-- Modelled from the spec: severity as a single ordered first-match
lookup, defaulting to success when no class matches. -/
def alertTypeSpec (a : AlertElem) : String :=
  ((severityTable.find? fun p => a.classes.contains p.1).map Prod.snd).getD "success"

/-- A toast wrapper appended to `body`: the outer `.position-fixed` div
and its toast content, tagged with an identity. -/
structure ToastContainer where
  cid : Nat
  content : ToastData
deriving DecidableEq

/-- The page's toast-related state: containers currently appended to
`body`, plus a fresh-identity counter. -/
structure PageToasts where
  nextId : Nat
  containers : List ToastContainer
deriving DecidableEq

/-- `showToast(message, type)`: build the wrapper markup, append it to
`body`, and show it. -/
def showToast (st : PageToasts) (message ty : String) : PageToasts :=
  { nextId := st.nextId + 1
    containers := st.containers ++ [⟨st.nextId, ⟨message, ty⟩⟩] }

/-- The `hidden.bs.toast` handler: `$(this).closest('.position-fixed')
.remove()` — the toast's whole wrapper leaves the page. -/
def onToastHidden (st : PageToasts) (i : Nat) : PageToasts :=
  { st with containers := st.containers.filter fun c => c.cid ≠ i }

/-! ## Auto-dismiss timer (script.js lines 75-77) -/

/-- What a timer scheduled by the script does when it fires. -/
inductive TimerAction
  | closeAllAlerts
deriving DecidableEq

/-- A timer registration: delay in milliseconds from page load, and its
action. -/
structure ScheduledTimer where
  delayMs : Nat
  action : TimerAction
deriving DecidableEq

/-- The timers the ready handler registers: exactly one `setTimeout` of
5000 ms whose callback is `$('.alert').alert('close')`. -/
def readyTimers : List ScheduledTimer := [⟨5000, .closeAllAlerts⟩]

/-- Effect of a fired timer action on the page's alert elements:
`$('.alert').alert('close')` removes every alert, whatever its
toast-conversion or interaction state. -/
def applyTimerAction : TimerAction → List AlertElem → List AlertElem
  | .closeAllAlerts, _ => []

/-! ## Theorems -/

/-- C1: for every pair of price/discount field strings that parse as
numbers `p` and `d`, the input handler writes `p - p*d/100`, formatted to
two decimal places by `toFixed2`, into the `final_price` field. -/
theorem c1_final_price_formula (ps ds : String) (p d : ℚ)
    (hp : parseFloat ps = some p) (hd : parseFloat ds = some d) :
    priceHandler ps ds = toFixed2 (p - p * d / 100) := by
  unfold priceHandler finalPrice orZero
  rw [hp, hd]
  rcases eq_or_ne p 0 with h1 | h1 <;> rcases eq_or_ne d 0 with h2 | h2 <;>
    simp [h1, h2]

/-- Witness for C1 at price `"100"`, discount `"25"`: the handler writes
`"75.00"`. -/
theorem c1_witness :
    parseFloat "100" = some 100 ∧ parseFloat "25" = some 25 ∧
      priceHandler "100" "25" = toFixed2 (100 - 100 * 25 / 100) ∧
      priceHandler "100" "25" = "75.00" :=
  ⟨by with_unfolding_all rfl, by with_unfolding_all rfl,
    c1_final_price_formula "100" "25" 100 25 (by with_unfolding_all rfl)
      (by with_unfolding_all rfl),
    by with_unfolding_all rfl⟩

/-- C2: an empty or non-numeric price or discount string is treated as
zero — the handler behaves as if the field held `"0"` — and in
particular `price="abc"`, `discount="10"` yields `"0.00"`. -/
theorem c2_invalid_input_as_zero :
    (∀ ps ds, parseFloat ps = none → priceHandler ps ds = priceHandler "0" ds) ∧
    (∀ ps ds, parseFloat ds = none → priceHandler ps ds = priceHandler ps "0") ∧
    parseFloat "" = none ∧ parseFloat "abc" = none ∧
    priceHandler "abc" "10" = "0.00" := by
  have h0 : parseFloat "0" = some 0 := by with_unfolding_all rfl
  refine ⟨?_, ?_, by with_unfolding_all rfl, by with_unfolding_all rfl,
    by with_unfolding_all rfl⟩
  · intro ps ds h
    unfold priceHandler
    rw [h, h0]
    simp [orZero]
  · intro ps ds h
    unfold priceHandler
    rw [h, h0]
    simp [orZero]

/-- Witness for C2 at the non-numeric inputs `"abc"` and `"xyz"`. -/
theorem c2_witness :
    priceHandler "abc" "10" = priceHandler "0" "10" ∧
      priceHandler "5" "xyz" = priceHandler "5" "0" :=
  ⟨c2_invalid_input_as_zero.1 "abc" "10" (by with_unfolding_all rfl),
    c2_invalid_input_as_zero.2.1 "5" "xyz" (by with_unfolding_all rfl)⟩

/-- C3 counterexample: an alert whose text is a single space produces no
toast at all (the `if (message)` guard skips it), so it is not the case
that every alert present at load yields exactly one toast. -/
theorem c3_counterexample :
    toastsOfAlerts [⟨" ", ["alert-danger"]⟩] = [] ∧
      (toastsOfAlerts [⟨" ", ["alert-danger"]⟩]).length ≠ 1 := by
  constructor
  · with_unfolding_all rfl
  · intro h
    rw [show toastsOfAlerts [⟨" ", ["alert-danger"]⟩] = [] from by
      with_unfolding_all rfl] at h
    simp at h

/-- C3 amended: every alert whose trimmed text is nonempty produces
exactly one toast — message the trimmed text, severity inferred from its
class — and alerts with empty or whitespace-only text produce none. -/
theorem c3_amended_toasts (alerts : List AlertElem) :
    toastsOfAlerts alerts =
      (alerts.filter fun a => jsTrim a.text ≠ "").map
        fun a => ⟨jsTrim a.text, alertType a⟩ := by
  induction alerts with
  | nil => rfl
  | cons a rest ih =>
    by_cases h : jsTrim a.text = "" <;>
      simp [toastsOfAlerts, alertToToast, List.filter_cons, h, ih] <;>
      simp [toastsOfAlerts] at ih <;> exact ih

/-- C4: a form whose action contains `"delete"` shows the confirm prompt
on submission; declining cancels the submission, accepting lets it
proceed. -/
theorem c4_delete_confirmation (f : Form) (answer : Bool)
    (h : strContains f.action "delete" = true) :
    confirmShown f = true ∧
      submitForm f false = SubmitOutcome.cancelled ∧
      submitForm f true = SubmitOutcome.proceeds ∧
      (submitForm f answer = SubmitOutcome.proceeds ↔ answer = true) := by
  refine ⟨?_, ?_, ?_, ?_⟩ <;>
    simp [confirmShown, submitForm, deleteGuardAttached, h]

/-- Witness for C4 at a concrete delete-action form. -/
theorem c4_witness :
    confirmShown ⟨"/products/delete/3"⟩ = true ∧
      submitForm ⟨"/products/delete/3"⟩ false = SubmitOutcome.cancelled ∧
      submitForm ⟨"/products/delete/3"⟩ true = SubmitOutcome.proceeds := by
  have h := c4_delete_confirmation ⟨"/products/delete/3"⟩ true
    (by with_unfolding_all rfl)
  exact ⟨h.1, h.2.1, h.2.2.1⟩

/-- C5: with a sibling image and a selected file, the change handler
starts a read of that file and its completion sets the image's `src` to
the file's data URL, a string beginning with `"data:"`; with no sibling
image or no file, no read is started and the `src` is unchanged. -/
theorem c5_image_preview (ev : ChangeEvent) (old : String) :
    (∀ f rest, ev.hasSiblingImg = true → ev.files = f :: rest →
        changeHandler ev = some f ∧ imgSrcAfter old ev = dataURL f ∧
        strStartsWith (imgSrcAfter old ev) "data:" = true) ∧
    (ev.hasSiblingImg = false ∨ ev.files = [] →
        changeHandler ev = none ∧ imgSrcAfter old ev = old) := by
  constructor
  · intro f rest h1 h2
    have hch : changeHandler ev = some f := by
      simp [changeHandler, h1, h2]
    refine ⟨hch, ?_, ?_⟩
    · simp [imgSrcAfter, hch]
    · simp [imgSrcAfter, hch, dataURL, strStartsWith]
      show startsWithL "data:".data
        ("data:" ++ (f.mime ++ (";base64," ++ f.payload))).data = true
      rw [String.data_append]
      simp [startsWithL]
  · intro h
    have hch : changeHandler ev = none := by
      rcases h with h | h
      · simp [changeHandler, h]
      · cases hs : ev.hasSiblingImg <;> simp [changeHandler, h, hs]
    exact ⟨hch, by simp [imgSrcAfter, hch]⟩

/-- Witness for C5 at a concrete selection with and without a sibling
image. -/
theorem c5_witness :
    changeHandler ⟨true, [⟨"a.png", "image/png", "AAAA"⟩]⟩ =
        some ⟨"a.png", "image/png", "AAAA"⟩ ∧
      imgSrcAfter "old.png" ⟨true, [⟨"a.png", "image/png", "AAAA"⟩]⟩ =
        "data:image/png;base64,AAAA" ∧
      imgSrcAfter "old.png" ⟨false, [⟨"a.png", "image/png", "AAAA"⟩]⟩ =
        "old.png" := by
  have hpos := (c5_image_preview ⟨true, [⟨"a.png", "image/png", "AAAA"⟩]⟩
    "old.png").1 ⟨"a.png", "image/png", "AAAA"⟩ [] rfl rfl
  have hneg := (c5_image_preview ⟨false, [⟨"a.png", "image/png", "AAAA"⟩]⟩
    "old.png").2 (Or.inl rfl)
  exact ⟨hpos.1, by rw [hpos.2.1]; with_unfolding_all rfl, hneg.2⟩

/-- A trace with no completion events leaves the image's `src` untouched:
selections alone never change it. -/
theorem runTrace_no_complete (src : String) (tr : List PreviewEv)
    (h : ∀ e ∈ tr, isCompleteEv e = false) : runTrace src tr = src := by
  induction tr with
  | nil => rfl
  | cons e rest ih =>
    cases e with
    | select ev =>
      simp [runTrace, stepEv] at *
      exact ih h.2
    | complete f =>
      have := h (.complete f) (by simp)
      simp [isCompleteEv] at this

/-- C9: each selection starts an unguarded read, and after any event
trace the image's `src` is the data URL of whichever read completed
last — independent of the selection order. -/
theorem c9_last_completion_wins (src : String) (tr₁ tr₂ : List PreviewEv)
    (f : JsFile) (h : ∀ e ∈ tr₂, isCompleteEv e = false) :
    runTrace src (tr₁ ++ PreviewEv.complete f :: tr₂) = dataURL f := by
  unfold runTrace
  rw [List.foldl_append]
  show runTrace (stepEv (runTrace src tr₁) (.complete f)) tr₂ = dataURL f
  simp [stepEv]
  exact runTrace_no_complete _ _ h

/-- Witness for C9: file `b` is selected after file `a`, yet `a`'s read
completes last and wins the displayed image. -/
theorem c9_witness :
    runTrace "initial"
        [PreviewEv.select ⟨true, [⟨"a", "image/png", "A"⟩]⟩,
         PreviewEv.select ⟨true, [⟨"b", "image/png", "B"⟩]⟩,
         PreviewEv.complete ⟨"b", "image/png", "B"⟩,
         PreviewEv.complete ⟨"a", "image/png", "A"⟩] =
      dataURL ⟨"a", "image/png", "A"⟩ :=
  c9_last_completion_wins "initial"
    [PreviewEv.select ⟨true, [⟨"a", "image/png", "A"⟩]⟩,
     PreviewEv.select ⟨true, [⟨"b", "image/png", "B"⟩]⟩,
     PreviewEv.complete ⟨"b", "image/png", "B"⟩] []
    ⟨"a", "image/png", "A"⟩ (by simp)

/-- C6: the chained hasClass ternaries equal a single first-match lookup
over the ordered table success, danger, warning, info, defaulting to
success. -/
theorem c6_severity_order (a : AlertElem) : alertType a = alertTypeSpec a := by
  unfold alertType alertTypeSpec severityTable
  cases h1 : a.classes.contains "alert-success" <;>
    cases h2 : a.classes.contains "alert-danger" <;>
      cases h3 : a.classes.contains "alert-warning" <;>
        cases h4 : a.classes.contains "alert-info" <;>
          simp only [List.find?, h1, h2, h3, h4] <;> rfl

/-- C7: a toast shown by `showToast` is on the page, and once its hide
transition fires the `hidden.bs.toast` handler, its whole container is
gone from the page. -/
theorem c7_toast_cleanup (st : PageToasts) (m ty : String) :
    (⟨st.nextId, ⟨m, ty⟩⟩ : ToastContainer) ∈ (showToast st m ty).containers ∧
      ∀ c ∈ (onToastHidden (showToast st m ty) st.nextId).containers,
        c.cid ≠ st.nextId := by
  constructor
  · simp [showToast]
  · intro c hc
    simp [onToastHidden, List.mem_filter] at hc
    exact hc.2

/-- Witness for C7 on an initially empty page. -/
theorem c7_witness :
    (⟨0, ⟨"saved", "success"⟩⟩ : ToastContainer) ∈
        (showToast ⟨0, []⟩ "saved" "success").containers ∧
      (⟨0, ⟨"saved", "success"⟩⟩ : ToastContainer) ∉
        (onToastHidden (showToast ⟨0, []⟩ "saved" "success") 0).containers := by
  have h := c7_toast_cleanup ⟨0, []⟩ "saved" "success"
  exact ⟨h.1, fun hm => h.2 _ hm rfl⟩

/-- C8: the ready handler registers exactly one timer, 5000 ms after
load, whose action removes every alert element from the page regardless
of its toast-conversion or interaction state. -/
theorem c8_auto_dismiss :
    readyTimers = [⟨5000, TimerAction.closeAllAlerts⟩] ∧
      ∀ (alerts : List AlertElem) (a : AlertElem), a ∈ alerts →
        a ∉ applyTimerAction TimerAction.closeAllAlerts alerts := by
  refine ⟨rfl, ?_⟩
  intro alerts a _ hmem
  simp [applyTimerAction] at hmem

/-- Witness for C8 at a concrete alert. -/
theorem c8_witness :
    (⟨"Saved.", ["alert-success"]⟩ : AlertElem) ∉
      applyTimerAction TimerAction.closeAllAlerts
        [⟨"Saved.", ["alert-success"]⟩] :=
  c8_auto_dismiss.2 [⟨"Saved.", ["alert-success"]⟩]
    ⟨"Saved.", ["alert-success"]⟩ (by simp)

/-- C10: an alert whose text trims to the empty string is skipped by the
flash-to-toast loop — no toast is created for it. -/
theorem c10_empty_message_skipped (a : AlertElem) (h : jsTrim a.text = "") :
    alertToToast a = none := by
  simp [alertToToast, h]

/-- Witness for C10 at a whitespace-only alert. -/
theorem c10_witness : alertToToast ⟨"   ", ["alert-info"]⟩ = none :=
  c10_empty_message_skipped ⟨"   ", ["alert-info"]⟩ (by with_unfolding_all rfl)

end AdminScript
